import Mathlib

/-!
Shallow embedding of the job-scam browser extension sources
(content script, popup scripts, background relays) and theorems
checking the natural-language specification against them.

Strings are modelled with Lean String (a list of characters); the
JavaScript string methods used by the sources (trim, substring,
includes, indexOf, split, replace) are given explicit character-level
models below.  DOM access is modelled by an oracle mapping a CSS
selector to the text content of the first matching element, when one
exists.  Numbers that the sources compare against fractional
thresholds are modelled as rationals.
-/

/-- Whitespace test used to model the JavaScript trim method. -/
def isWS (c : Char) : Bool := c == ' ' || c == '\n' || c == '\t' || c == '\r'

/-- Drop trailing whitespace characters. -/
def dropTrailingWS (l : List Char) : List Char := ((l.reverse).dropWhile isWS).reverse

/-- Character-list model of the JavaScript trim method. -/
def trimChars (l : List Char) : List Char := dropTrailingWS (l.dropWhile isWS)

/-- Model of the JavaScript trim method on strings. -/
def jsTrim (s : String) : String := ⟨trimChars s.data⟩

/-- Model of the JavaScript substring(0, n) method. -/
def jsSubstringTo (s : String) (n : Nat) : String := ⟨s.data.take n⟩

/-- Model of the JavaScript includes method on strings. -/
def strContains (hay needle : String) : Bool := go hay.data
where go : List Char → Bool
  | [] => needle.data.isPrefixOf []
  | c :: t => needle.data.isPrefixOf (c :: t) || go t

/-- Model of the JavaScript indexOf method: index of the first
occurrence of the needle, or -1 when absent. -/
def idxOfAux (needle : List Char) : List Char → Int
  | [] => if needle.isPrefixOf ([] : List Char) then 0 else -1
  | c :: t =>
    if needle.isPrefixOf (c :: t) then 0
    else
      let r := idxOfAux needle t
      if r < 0 then -1 else r + 1

/-- String-level indexOf. -/
def strIndexOf (hay needle : String) : Int := idxOfAux needle.data hay.data

/-- Model of the JavaScript replace method with a plain string pattern:
only the first occurrence is replaced. -/
def replaceFirstChars (pat rep : List Char) : List Char → List Char
  | [] => []
  | c :: t =>
    if pat.isPrefixOf (c :: t) then rep ++ (c :: t).drop pat.length
    else c :: replaceFirstChars pat rep t

/-- String-level first-occurrence replace. -/
def strReplaceFirst (s pat rep : String) : String :=
  ⟨replaceFirstChars pat.data rep.data s.data⟩

/-- Fuel-driven splitter on a non-empty separator; the fuel is an upper
bound on the input length, so the fuel-exhausted arm is unreachable. -/
def splitOnFuel (sep : List Char) : Nat → List Char → List Char → List (List Char)
  | 0, l, acc => [acc.reverse ++ l]
  | _ + 1, [], acc => [acc.reverse]
  | fuel + 1, c :: t, acc =>
    if sep.isPrefixOf (c :: t) then
      acc.reverse :: splitOnFuel sep fuel ((c :: t).drop sep.length) []
    else splitOnFuel sep fuel t (c :: acc)

/-- Model of the JavaScript split method with a plain string separator
(the sources only split on non-empty separators). -/
def jsSplitOn (s sep : String) : List String :=
  if sep = "" then [s]
  else (splitOnFuel sep.data (s.data.length + 1) s.data []).map (fun l => ⟨l⟩)

/-- Model of the JavaScript join method. -/
def joinSep (sep : String) : List String → String
  | [] => ""
  | [x] => x
  | x :: y :: xs => x ++ sep ++ joinSep sep (y :: xs)

lemma dropWhile_eq_self_of_head {p : Char → Bool} {c : Char} {l : List Char}
    (hc : p c = false) : (c :: l).dropWhile p = c :: l := by
  simp [List.dropWhile_cons, hc]

lemma dropWhile_append_exists {p : Char → Bool} (a : List Char) {l : List Char}
    (hl : l.dropWhile p = l) : ∃ aa, (a ++ l).dropWhile p = aa ++ l := by
  induction a with
  | nil => exact ⟨[], by simpa using hl⟩
  | cons x xs ih =>
    by_cases hx : p x
    · obtain ⟨aa, haa⟩ := ih
      exact ⟨aa, by simpa [List.dropWhile_cons, hx] using haa⟩
    · exact ⟨x :: xs, by simp [List.dropWhile_cons, hx]⟩

/-- A substring whose first and last characters are not whitespace
survives trimming. -/
lemma infix_trimChars {m l : List Char} (hml : m <:+: l)
    (hh : ∀ c, m.head? = some c → isWS c = false)
    (hg : ∀ c, m.getLast? = some c → isWS c = false)
    (hm : m ≠ []) : m <:+: trimChars l := by
  obtain ⟨a, b, rfl⟩ := hml
  obtain ⟨c, m', rfl⟩ := List.exists_cons_of_ne_nil hm
  have hws : isWS c = false := hh c rfl
  have h1 : ((c :: m') ++ b).dropWhile isWS = (c :: m') ++ b := by
    rw [List.cons_append]
    exact dropWhile_eq_self_of_head hws
  obtain ⟨aa, haa⟩ := dropWhile_append_exists a h1
  have hrevne : ((c :: m') : List Char).reverse ≠ [] := by
    simp
  obtain ⟨d, r, hdr⟩ := List.exists_cons_of_ne_nil hrevne
  have hd : isWS d = false := by
    refine hg d ?_
    rw [List.getLast?_eq_head?_reverse, hdr]
    rfl
  have h2 : (((c :: m').reverse ++ aa.reverse) : List Char).dropWhile isWS
      = (c :: m').reverse ++ aa.reverse := by
    rw [hdr, List.cons_append]
    exact dropWhile_eq_self_of_head hd
  obtain ⟨w, hw⟩ := dropWhile_append_exists b.reverse h2
  have key : trimChars (a ++ (c :: m') ++ b) = aa ++ (c :: m') ++ w.reverse := by
    unfold trimChars dropTrailingWS
    rw [List.append_assoc, haa, List.reverse_append, List.reverse_append,
      List.append_assoc, hw]
    simp
  rw [key]
  exact ⟨aa, w.reverse, rfl⟩

namespace Content

/-! Embedding of src/browser-extension/content.js (the JobTrustAnalyzer
content script).  A listing card is modelled by its raw text content
plus a selector oracle giving the text content of the first descendant
matching a selector, when any does. -/

/-- A job-listing preview card node. -/
structure Card where
  textContent : String
  query : String → Option String

/-- The mojibake bullet separator that appears literally in the source. -/
def bulletStr : String := "‚Ä¢"

/-- Method getTextFromElement: first selector whose element has
non-empty trimmed text content wins. -/
def getTextFromElement (card : Card) : List String → String
  | [] => ""
  | sel :: rest =>
    match card.query sel with
    | some t => if jsTrim t ≠ "" then jsTrim t else getTextFromElement card rest
    | none => getTextFromElement card rest

/-- Character class [\d,] of the salary regex. -/
def isDigitComma (c : Char) : Bool := c.isDigit || c == ','

/-- Optional single literal character of a regex, greedy. -/
def matchOptChar (c : Char) : List Char → List Char × List Char
  | x :: t => if x == c then ([c], t) else ([], x :: t)
  | [] => ([], [])

/-- Optional range part of the salary regex: a literal dollar range
continuation, greedy. -/
def matchOptRange : List Char → List Char × List Char
  | ' ' :: '-' :: ' ' :: '$' :: rest =>
    let ds := rest.takeWhile isDigitComma
    if ds.isEmpty then ([], ' ' :: '-' :: ' ' :: '$' :: rest)
    else
      let p := matchOptChar 'K' (rest.dropWhile isDigitComma)
      (' ' :: '-' :: ' ' :: '$' :: (ds ++ p.1), p.2)
  | l => ([], l)

/-- Optional per-period suffix of the salary regex, alternatives tried
in source order. -/
def matchOptSuffix (l : List Char) : List Char × List Char :=
  if ("/yr".data).isPrefixOf l then ("/yr".data, l.drop 3)
  else if ("/hr".data).isPrefixOf l then ("/hr".data, l.drop 3)
  else if ("/year".data).isPrefixOf l then ("/year".data, l.drop 5)
  else if ("/hour".data).isPrefixOf l then ("/hour".data, l.drop 5)
  else ([], l)

/-- The salary regex matched at the start of a character list. -/
def matchSalaryAt : List Char → Option (List Char)
  | '$' :: rest =>
    let ds := rest.takeWhile isDigitComma
    if ds.isEmpty then none
    else
      let p1 := matchOptChar 'K' (rest.dropWhile isDigitComma)
      let p2 := matchOptRange p1.2
      let p3 := matchOptSuffix p2.2
      some ('$' :: (ds ++ p1.1 ++ p2.1 ++ p3.1))
  | _ => none

/-- Leftmost-match search, as the JavaScript match method performs. -/
def scanFirst (matchAt : List Char → Option (List Char)) : List Char → Option (List Char)
  | [] => matchAt []
  | c :: t =>
    match matchAt (c :: t) with
    | some m => some m
    | none => scanFirst matchAt t

/-- The bare NNNK/yr regex matched at the start of a character list. -/
def matchKSalaryAt (l : List Char) : Option (List Char) :=
  let ds := l.takeWhile Char.isDigit
  if ds.isEmpty then none
  else if ("K/yr".data).isPrefixOf (l.drop ds.length) then some (ds ++ "K/yr".data)
  else none

/-- Method extractSalaryFromText. -/
def extractSalaryFromText (text : String) : String :=
  match scanFirst matchSalaryAt text.data with
  | some m => ⟨m⟩
  | none =>
    match scanFirst matchKSalaryAt text.data with
    | some m => ⟨m⟩
    | none => "Salary not specified"

/-- One word of the location regex: an uppercase letter followed by at
least one lowercase letter, greedy. -/
def matchWord : List Char → Option (List Char × List Char)
  | c :: rest =>
    if c.isUpper then
      let ls := rest.takeWhile Char.isLower
      if ls.isEmpty then none else some (c :: ls, rest.dropWhile Char.isLower)
    else none
  | [] => none

/-- All ways the starred group (space then word) of the location regex
can consume input, greediest first, used for backtracking. -/
def starSpaceWordAux : Nat → List Char → List (List Char × List Char)
  | 0, l => [([], l)]
  | fuel + 1, l =>
    match l with
    | ' ' :: rest =>
      match matchWord rest with
      | some (w, rest1) =>
        ((starSpaceWordAux fuel rest1).map (fun p => (' ' :: (w ++ p.1), p.2))) ++ [([], l)]
      | none => [([], l)]
    | _ => [([], l)]

/-- Tail of the location regex without the optional comma: a space and
exactly two uppercase letters. -/
def matchNoCommaTail : List Char → Option (List Char)
  | ' ' :: a :: b :: _ => if a.isUpper && b.isUpper then some [' ', a, b] else none
  | _ => none

/-- Tail of the location regex: optional comma (greedy, with fallback),
a space, and two uppercase letters. -/
def matchCommaTail (l : List Char) : Option (List Char) :=
  match l with
  | ',' :: ' ' :: a :: b :: _ =>
    if a.isUpper && b.isUpper then some [',', ' ', a, b] else matchNoCommaTail l
  | _ => matchNoCommaTail l

/-- First defined element of a list of options. -/
def firstSome : List (Option (List Char)) → Option (List Char)
  | [] => none
  | some a :: _ => some a
  | none :: t => firstSome t

/-- The city-state location regex matched at the start of a character
list, with backtracking over the starred group. -/
def matchLocation1At (l : List Char) : Option (List Char) :=
  match matchWord l with
  | none => none
  | some (w, rest) =>
    firstSome ((starSpaceWordAux rest.length rest).map
      (fun p => (matchCommaTail p.2).map (fun t => w ++ p.1 ++ t)))

/-- The bullet-separated city-state regex matched at the start of a
character list. -/
def matchLocation2At (l : List Char) : Option (List Char) :=
  match matchWord l with
  | none => none
  | some (w, rest) =>
    let sep := (" " ++ bulletStr ++ " ").data
    if sep.isPrefixOf rest then
      match matchWord (rest.drop sep.length) with
      | some (w2, _) => some (w ++ sep ++ w2)
      | none => none
    else none

/-- Method extractLocationFromText. -/
def extractLocationFromText (text : String) : String :=
  match scanFirst matchLocation1At text.data with
  | some m => ⟨m⟩
  | none =>
    match scanFirst matchLocation2At text.data with
    | some m => strReplaceFirst ⟨m⟩ (" " ++ bulletStr) ","
    | none => "Location not specified"

/-- The shared line preprocessing of the title and company text
heuristics: split on newlines, trim, keep non-empty lines. -/
def nonEmptyTrimmedLines (text : String) : List String :=
  ((jsSplitOn text "\n").map jsTrim).filter (fun l => l.length > 0)

/-- Second half of extractTitleFromText: the line just before the
first occurrence of the word Apply. -/
def titleBeforeApply (text : String) : String :=
  let applyIndex := strIndexOf text "Apply"
  if applyIndex > 0 then
    let beforeApply := jsTrim (jsSubstringTo text applyIndex.toNat)
    match (jsSplitOn beforeApply "\n").getLast? with
    | some last => jsTrim last
    | none => "Unknown Position"
  else "Unknown Position"

/-- Method extractTitleFromText. -/
def extractTitleFromText (text : String) : String :=
  match nonEmptyTrimmedLines text with
  | l0 :: _ => if l0.length < 100 then l0 else titleBeforeApply text
  | [] => titleBeforeApply text

/-- Second half of extractCompanyFromText: text after the bullet
separator. -/
def companyFromBullet (text : String) : String :=
  if strContains text bulletStr then
    match jsSplitOn text bulletStr with
    | _ :: p1 :: _ => (jsSplitOn (jsTrim p1) "\n").headD ""
    | _ => "Unknown Company"
  else "Unknown Company"

/-- Method extractCompanyFromText. -/
def extractCompanyFromText (text : String) : String :=
  match nonEmptyTrimmedLines text with
  | _ :: l1 :: _ => if l1.length < 50 then l1 else companyFromBullet text
  | _ => companyFromBullet text

/-- Test for a dollar sign immediately followed by a digit or comma. -/
def hasDollarDigit : List Char → Bool
  | '$' :: c :: rest => isDigitComma c || hasDollarDigit (c :: rest)
  | _ :: rest => hasDollarDigit rest
  | [] => false

/-- The comma-optional city-state regex used as a line filter. -/
def matchCityStateAt (l : List Char) : Option (List Char) :=
  match matchWord l with
  | some (w, rest) => (matchCommaTail rest).map (fun t => w ++ t)
  | none => none

/-- Boolean test of the city-state line filter. -/
def hasCityState (l : List Char) : Bool := (scanFirst matchCityStateAt l).isSome

/-- Method extractDescriptionFromText. -/
def extractDescriptionFromText (text : String) : String :=
  let lines := ((jsSplitOn text "\n").map jsTrim).filter (fun line =>
    line.length > 10 && line.length < 200 && !(strContains line "Apply") &&
    !(hasDollarDigit line.data) && !(hasCityState line.data))
  let joined := joinSep " | " (lines.take 2)
  if joined = "" then "Job details not available in preview" else joined

end Content

/-- The record shape produced by the full-page extractors. -/
structure JobRecord where
  title : String := ""
  company : String := ""
  description : String := ""
  text : String := ""
  url : String := ""
deriving DecidableEq

/-- The JSON object shape delivered over the extension message channel:
the external service response, or a normalized error object. -/
structure RespObj where
  error : Option String := none
  prediction : Option String := none
  confidence : Option ℚ := none
  reasoning : Option String := none
  jobTitle : Option String := none
  jobCompany : Option String := none
deriving DecidableEq

/-- JavaScript truthiness of an optional string field. -/
def jsTruthyOpt (o : Option String) : Bool :=
  match o with
  | some s => s ≠ ""
  | none => false

/-- The three styling families of the result presenters. -/
inductive Styling where
  | scam
  | legit
  | caution
deriving DecidableEq

/-- Classify a presenter state by the status color it renders, the
observable shared by every presenter variant. -/
def colorStyle (c : String) : Styling :=
  if c = "#ef4444" then .scam else if c = "#10b981" then .legit else .caution

/-- Modelled from the spec: prediction fake gives scam styling
regardless of confidence, confidence above 0.8 gives the likely
legitimate styling, anything else the caution styling. -/
def specStyle (prediction : Option String) (confidence : ℚ) : Styling :=
  if prediction = some "fake" then .scam
  else if confidence > 8/10 then .legit
  else .caution

/-- Modelled from the spec, with the legitimate threshold at 0.7. -/
def specStyle07 (prediction : Option String) (confidence : ℚ) : Styling :=
  if prediction = some "fake" then .scam
  else if confidence > 7/10 then .legit
  else .caution

/-- Body of a settled HTTP response: parsed JSON or a parse failure. -/
inductive JsonBody where
  | parsed (r : RespObj)
  | malformed (msg : String)

/-- Outcome of a fetch call: rejected promise, or a response with a
status code and a body. -/
inductive FetchOutcome where
  | networkFailure (msg : String)
  | httpResponse (status : Nat) (body : JsonBody)

/-- The ok flag of a fetch Response. -/
def statusOk (s : Nat) : Bool := 200 ≤ s && s ≤ 299

/-- The failure modes named by the spec: network failure, non-success
status, malformed JSON body. -/
def isFailure : FetchOutcome → Bool
  | .networkFailure _ => true
  | .httpResponse status (.parsed _) => !statusOk status
  | .httpResponse _ (.malformed _) => true

namespace Content

/-- The record shape produced by the card extractor. -/
structure CardRecord where
  title : String
  company : String
  location : String
  salary : String
  description : String
  text : String

def cardTitleSelectors : List String :=
  ["h2", "h3", "h4", ".job_title", ".job-title", ".title",
   "[class*=\"title\"]", ".job_header", ".job-header"]

def cardCompanySelectors : List String :=
  [".company", ".employer", ".company_name", "[class*=\"company\"]",
   ".job_company", ".job-company"]

def cardLocationSelectors : List String :=
  [".location", ".job_location", ".job-location", "[class*=\"location\"]"]

def cardSalarySelectors : List String :=
  [".salary", ".compensation", ".pay", "[class*=\"salary\"]",
   "[class*=\"compensation\"]"]

def cardDescriptionSelectors : List String :=
  [".job_snippet", ".job-snippet", ".description", ".job_type", ".job-type",
   "[class*=\"description\"]", "[class*=\"snippet\"]"]

/-- The analysis-text template of the card extractor. -/
def cardText (title company location salary description : String) : String :=
  "JOB TITLE: " ++ title ++ " | COMPANY: " ++ company ++ " | LOCATION: " ++
    location ++ " | SALARY: " ++ salary ++ " | DESCRIPTION: " ++ description

/-- Method extractJobDataFromCard. -/
def extractJobDataFromCard (card : Card) : CardRecord :=
  let title :=
    let sel := getTextFromElement card cardTitleSelectors
    if sel ≠ "" then sel else extractTitleFromText card.textContent
  let company :=
    let sel := getTextFromElement card cardCompanySelectors
    if sel ≠ "" then sel else extractCompanyFromText card.textContent
  let location :=
    let sel := getTextFromElement card cardLocationSelectors
    if sel ≠ "" then sel else extractLocationFromText card.textContent
  let salary :=
    let sel := getTextFromElement card cardSalarySelectors
    if sel ≠ "" then sel else extractSalaryFromText card.textContent
  let description0 :=
    let sel := getTextFromElement card cardDescriptionSelectors
    if sel ≠ "" then sel else extractDescriptionFromText card.textContent
  let description :=
    if description0 = "" ∨ description0.length < 20
    then jsTrim (jsSubstringTo card.textContent 200)
    else description0
  { title := title, company := company, location := location, salary := salary,
    description := description,
    text := cardText title company location salary description }

/-- A loaded document, as the content script sees it: location parts
plus a querySelector oracle returning the text content of the first
matching element. -/
structure Doc where
  url : String
  hostname : String
  pathname : String
  query : String → Option String

/-- Method getText: first selector whose element has non-empty trimmed
text content wins. -/
def getText (d : Doc) : List String → String
  | [] => ""
  | sel :: rest =>
    match d.query sel with
    | some t => if jsTrim t ≠ "" then jsTrim t else getText d rest
    | none => getText d rest

def contentSelectors : List String :=
  ["main", "[role=\"main\"]", ".content", ".main-content", "#main-content"]

/-- Loop body of getDescriptionFallback over the content selectors. -/
def getDescriptionFallbackAux (d : Doc) : List String → String
  | [] => ""
  | sel :: rest =>
    match d.query sel with
    | some t => if t.length > 500 then jsTrim t else getDescriptionFallbackAux d rest
    | none => getDescriptionFallbackAux d rest

/-- Method getDescriptionFallback: first content container whose text
exceeds 500 characters, untruncated. -/
def getDescriptionFallback (d : Doc) : String :=
  getDescriptionFallbackAux d contentSelectors

def indeedTitleSelectors : List String :=
  [".jobsearch-JobInfoHeader-title", "h1.jobTitle",
   "[data-testid=\"jobsearch-JobInfoHeader-title\"]", "h1"]

def indeedCompanySelectors : List String :=
  ["[data-company-name]", ".companyName", ".jobsearch-CompanyReview--heading",
   "[data-testid=\"company-name\"]"]

def indeedDescriptionSelectors : List String :=
  ["#jobDescriptionText", ".job-description", ".jobsearch-JobComponent-description",
   "[data-testid=\"job-description\"]"]

def linkedinTitleSelectors : List String :=
  [".jobs-details-top-card__job-title", ".job-title", "h1"]

def linkedinCompanySelectors : List String :=
  [".jobs-details-top-card__company-url", ".jobs-details-top-card__company-name",
   ".jobs-unified-top-card__company-name"]

def linkedinDescriptionSelectors : List String :=
  [".jobs-description-content__text", ".description__text", ".jobs-description"]

def glassdoorTitleSelectors : List String :=
  [".jobTitle", "h1[data-test=\"job-title\"]", "h1"]

def glassdoorCompanySelectors : List String :=
  [".employerName", ".css-16nw49e", "[data-test=\"employer-name\"]"]

def glassdoorDescriptionSelectors : List String :=
  [".jobDescriptionContent", ".desc", ".job-description"]

def fallbackTitleSelectors : List String := ["h1", ".title", ".job-title"]

/-- The title the hostname-specific branches of extractJobData select. -/
def classSelTitle (d : Doc) : String :=
  if strContains d.hostname "indeed.com" then getText d indeedTitleSelectors
  else if strContains d.hostname "linkedin.com" then getText d linkedinTitleSelectors
  else if strContains d.hostname "glassdoor.com" then getText d glassdoorTitleSelectors
  else ""

/-- The company the hostname-specific branches of extractJobData select. -/
def classSelCompany (d : Doc) : String :=
  if strContains d.hostname "indeed.com" then getText d indeedCompanySelectors
  else if strContains d.hostname "linkedin.com" then getText d linkedinCompanySelectors
  else if strContains d.hostname "glassdoor.com" then getText d glassdoorCompanySelectors
  else ""

/-- The description the hostname-specific branches of extractJobData
select. -/
def classSelDescription (d : Doc) : String :=
  if strContains d.hostname "indeed.com" then getText d indeedDescriptionSelectors
  else if strContains d.hostname "linkedin.com" then getText d linkedinDescriptionSelectors
  else if strContains d.hostname "glassdoor.com" then getText d glassdoorDescriptionSelectors
  else ""

/-- Method extractJobData of the content script (full detail page). -/
def extractJobData (d : Doc) : JobRecord :=
  let title0 := classSelTitle d
  let company := classSelCompany d
  let description0 := classSelDescription d
  let title := if title0 = "" then getText d fallbackTitleSelectors else title0
  let description := if description0 = "" then getDescriptionFallback d else description0
  { title := title, company := company, description := description, url := d.url,
    text := "JOB TITLE: " ++ title ++ " | COMPANY: " ++ company ++
      " | DESCRIPTION: " ++ description }

def listingContainerSelector : String :=
  ".job_results, .jobsearch-Results, [data-test=\"jobListing\"], .jobs-search-results"

/-- The detail-page conditions of getPageType, in source order. -/
def detailCond (d : Doc) : Bool :=
  strContains d.url "/viewjob" ||
  (strContains d.url "/job/" && strContains d.url "jk=") ||
  strContains d.pathname "/jobs/view/" ||
  (strContains d.pathname "/Job/" && !strContains d.pathname "-jobs") ||
  (strContains d.url "/jobs/" && strContains d.url "/view/")

/-- The listing-page conditions of getPageType, in source order. -/
def listingCond (d : Doc) : Bool :=
  strContains d.pathname "/jobs-search" ||
  (strContains d.pathname "/jobs/" && !strContains d.pathname "/view/") ||
  (strContains d.pathname "/Job/" && strContains d.pathname "-jobs") ||
  strContains d.url "/jobs?" ||
  strContains d.url "/jobs-search?" ||
  strContains d.url "/job-search" ||
  (d.query listingContainerSelector).isSome

/-- Method getPageType: detail conditions are tested before listing
conditions. -/
def getPageType (d : Doc) : String :=
  if detailCond d then "job-detail"
  else if listingCond d then "job-listing"
  else "unknown"

/-- Session state of the JobTrustAnalyzer object. -/
structure AnalyzerState where
  analyzedUrls : List String
  isAnalyzing : Bool

/-- Outcome of the awaited sendMessage call: a resolved response value
(possibly undefined), or a thrown error. -/
inductive SendResult where
  | resolved (resp : Option RespObj)
  | threw (msg : String)

/-- What the analyzer rendered at the end of a run. -/
inductive UiOutcome where
  | skipped
  | results (r : RespObj)
  | error (msg : String)
deriving DecidableEq

/-- True when the rendered outcome is the error indicator. -/
def UiOutcome.isErrorOut : UiOutcome → Bool
  | .error _ => true
  | _ => false

/-- Method displayResults: error-shaped or missing responses render the
error indicator, anything else the results badge. -/
def displayResults (analysis : Option RespObj) : UiOutcome :=
  match analysis with
  | none => .error ("Analysis failed: " ++ "Unknown error")
  | some r =>
    if jsTruthyOpt r.error then .error ("Analysis failed: " ++ r.error.getD "")
    else .results r

/-- Method analyzeCurrentJob, as a transition on the analyzer state.
The in-flight guard and the dedup check return early; otherwise the
extracted text is length-checked, the message send is awaited, its
outcome is rendered, and on any resolved send the URL is added to the
analyzed set.  The finally clause clears the in-flight flag on every
path that set it. -/
def analyzeCurrentJob (st : AnalyzerState) (d : Doc) (send : SendResult) :
    AnalyzerState × UiOutcome :=
  if st.isAnalyzing then (st, .skipped)
  else if st.analyzedUrls.contains d.url then (st, .skipped)
  else
    let jobData := extractJobData d
    if jobData.text ≠ "" ∧ jobData.text.length > 300 then
      match send with
      | .resolved resp =>
        ({ analyzedUrls := d.url :: st.analyzedUrls, isAnalyzing := false },
          displayResults resp)
      | .threw msg =>
        ({ st with isAnalyzing := false }, .error ("Analysis failed: " ++ msg))
    else
      ({ st with isAnalyzing := false },
        .error "Not enough job information found on this page")

/-- The analyzeJob message the content script sends to the background
relay. -/
structure AnalyzeMsg where
  action : String
  jobText : String
  jobTitle : String
  jobCompany : String

/-- The message analyzeCurrentJob builds from the extracted record. -/
def analyzeCurrentJobMsg (jobData : JobRecord) : AnalyzeMsg :=
  { action := "analyzeJob", jobText := jobData.text, jobTitle := jobData.title,
    jobCompany := jobData.company }

/-- Styling-relevant fragment of the in-page results badge. -/
structure BadgeView where
  background : String
  borderColor : String
  statusText : String
  statusColor : String

/-- Method createResultsBadge, restricted to its styling choices. -/
def createResultsBadge (prediction : Option String) (confidence : ℚ) : BadgeView :=
  let isScam := prediction = some "fake"
  { background :=
      if isScam then "#fee2e2" else if confidence > 8/10 then "#d1fae5" else "#fef3c7",
    borderColor :=
      if isScam then "#ef4444" else if confidence > 8/10 then "#10b981" else "#f59e0b",
    statusText :=
      if isScam then "POTENTIAL SCAM"
      else if confidence > 8/10 then "LIKELY LEGITIMATE"
      else "SUSPICIOUS ELEMENTS FOUND",
    statusColor :=
      if isScam then "#ef4444" else if confidence > 8/10 then "#10b981" else "#f59e0b" }

/-- Styling-relevant fragment of the per-card floating panel. -/
structure FloatView where
  statusText : String
  statusColor : String

/-- Method updateFloatingAnalysis, restricted to its styling choices on
a non-error analysis. -/
def updateFloatingAnalysis (prediction : Option String) (confidence : ℚ) : FloatView :=
  let isScam := prediction = some "fake"
  { statusText :=
      if isScam then "POTENTIAL SCAM"
      else if confidence > 7/10 then "LIKELY SAFE"
      else "USE CAUTION",
    statusColor :=
      if isScam then "#ef4444" else if confidence > 7/10 then "#10b981" else "#f59e0b" }

end Content

namespace PopupUI

/-! Embedding of the popup document bundled with the content script:
the manual-input tab, the direct fetch path, and the injected
page-extraction function. -/

/-- The JSON body the popup posts to the analyze endpoint. -/
structure AnalyzeBody where
  job_text : String
  source : String
deriving DecidableEq

/-- The body built by sendForAnalysis: the job text truncated to 4000
characters, tagged with the popup source. -/
def sendForAnalysisBody (jobText : String) : AnalyzeBody :=
  { job_text := jsSubstringTo jobText 4000, source := "popup" }

/-- Observable outcome of the manual-input handler. -/
inductive ManualOutcome where
  | rejected (msg : String)
  | invoked (body : AnalyzeBody)
deriving DecidableEq

/-- True when the handler reached the network call. -/
def ManualOutcome.relayInvoked : ManualOutcome → Bool
  | .invoked _ => true
  | .rejected _ => false

/-- Function analyzeTextInput: trim, reject short input inline, else
hand the text to sendForAnalysis. -/
def analyzeTextInput (inputValue : String) : ManualOutcome :=
  let text := jsTrim inputValue
  if text.length < 50 then
    .rejected "❌ Please enter at least 50 characters of job description."
  else .invoked (sendForAnalysisBody text)

/-- The page seen by the injected extraction function: location href, a
querySelector oracle, and the body text. -/
structure PageDoc where
  url : String
  query : String → Option String
  bodyText : String

/-- The title selected by the hostname branches of the injected
extractJobDataFromPage. -/
def pageSelTitle (d : PageDoc) : String :=
  if strContains d.url "indeed.com" then
    ((d.query ".jobsearch-JobInfoHeader-title, h1.jobTitle, [data-testid=\"jobsearch-JobInfoHeader-title\"]").map jsTrim).getD ""
  else if strContains d.url "linkedin.com" then
    ((d.query ".jobs-details-top-card__job-title, .job-title, .jobs-unified-top-card__job-title").map jsTrim).getD ""
  else ""

/-- The company selected by the hostname branches of the injected
extractJobDataFromPage. -/
def pageSelCompany (d : PageDoc) : String :=
  if strContains d.url "indeed.com" then
    ((d.query "[data-company-name], .companyName, [data-testid=\"company-name\"]").map jsTrim).getD ""
  else if strContains d.url "linkedin.com" then
    ((d.query ".jobs-details-top-card__company-url, .jobs-details-top-card__company-name, .jobs-unified-top-card__company-name").map jsTrim).getD ""
  else ""

/-- The description selected by the hostname branches of the injected
extractJobDataFromPage. -/
def pageSelDescription (d : PageDoc) : String :=
  if strContains d.url "indeed.com" then
    ((d.query "#jobDescriptionText, .job-description, .jobsearch-JobComponent-description").map jsTrim).getD ""
  else if strContains d.url "linkedin.com" then
    ((d.query ".jobs-description-content__text, .description__text, .jobs-description").map jsTrim).getD ""
  else ""

/-- The main-content container the fallback reads: the first match of
the container selector list, or the whole body. -/
def pageMainText (d : PageDoc) : String :=
  match d.query "main, #main, .job-details, .jobs-details" with
  | some t => t
  | none => d.bodyText

/-- The analysis-text template literal of extractJobDataFromPage,
before trimming. -/
def pageTemplate (title company url description : String) : String :=
  "\nJOB TITLE: " ++ title ++ "\nCOMPANY: " ++ company ++ "\nURL: " ++ url ++
    "\nDESCRIPTION: " ++ description ++ "\n    "

/-- The injected function extractJobDataFromPage. -/
def extractJobDataFromPage (d : PageDoc) : JobRecord :=
  let title := pageSelTitle d
  let company := pageSelCompany d
  let description0 := pageSelDescription d
  let description :=
    if description0 = "" ∨ description0.length < 200
    then jsSubstringTo (pageMainText d) 2000
    else description0
  { title := title, company := company, description := description,
    text := jsTrim (pageTemplate title company d.url description) }

end PopupUI

namespace LegacyPopup

/-! Embedding of src/popup.js: the result presenter and the injected
extraction function of the older popup variant. -/

/-- Styling-relevant fragment of the popup result view. -/
structure ResultView where
  className : String
  titleText : String
  titleColor : String
deriving DecidableEq

/-- Function displayResult, restricted to its styling choices. -/
def displayResult (prediction : Option String) (confidence : ℚ) : ResultView :=
  let isScam := prediction = some "fake"
  if isScam then
    { className := "result danger", titleText := "Potential Scam Detected",
      titleColor := "#ef4444" }
  else if confidence > 8/10 then
    { className := "result safe", titleText := "Likely Legitimate",
      titleColor := "#10b981" }
  else
    { className := "result warning", titleText := "Suspicious Elements Found",
      titleColor := "#f59e0b" }

/-- The injected function extractJobData of src/popup.js.  Its fields
come from innerText without trimming, and its template writes the label
TITLE: rather than JOB TITLE:. -/
def extractJobData (d : Content.Doc) : JobRecord :=
  let title :=
    if strContains d.hostname "linkedin.com" then
      (d.query ".jobs-details-top-card__job-title").getD ""
    else if strContains d.hostname "indeed.com" then
      (d.query ".jobsearch-JobInfoHeader-title").getD ""
    else if strContains d.hostname "glassdoor.com" then
      (d.query ".jobTitle").getD ""
    else ""
  let company :=
    if strContains d.hostname "linkedin.com" then
      (d.query ".jobs-details-top-card__company-url").getD ""
    else if strContains d.hostname "indeed.com" then
      (d.query "[data-company-name]").getD ""
    else if strContains d.hostname "glassdoor.com" then
      (d.query ".employerName").getD ""
    else ""
  let description :=
    if strContains d.hostname "linkedin.com" then
      (d.query ".jobs-description-content__text").getD ""
    else if strContains d.hostname "indeed.com" then
      (d.query "#jobDescriptionText").getD ""
    else if strContains d.hostname "glassdoor.com" then
      (d.query ".jobDescriptionContent").getD ""
    else ""
  { title := title, company := company, description := description,
    text := "TITLE: " ++ title ++ " | COMPANY: " ++ company ++
      " | DESCRIPTION: " ++ description }

end LegacyPopup

namespace Background

/-! Embedding of src/browser-extension/background.js: the analyzeJob
message handler that performs the fetch and normalizes failures. -/

/-- The error object the catch handler sends. -/
def errResp (msg : String) : RespObj :=
  { error := some msg, prediction := some "error", confidence := some 0,
    reasoning := some "Unable to analyze job posting. Please ensure the local server is running on port 5001." }

/-- The value sendResponse delivers for a given fetch outcome. -/
def onAnalyzeJob (f : FetchOutcome) : RespObj :=
  match f with
  | .networkFailure msg => errResp msg
  | .httpResponse status body =>
    if statusOk status then
      match body with
      | .parsed data => data
      | .malformed msg => errResp msg
    else errResp ("Server error: " ++ toString status)

end Background

namespace LegacyBackground

/-! Embedding of src/background.js: analyzeJob normalizes every failure
into one thrown message, and the listener turns a thrown message into
an error object. -/

/-- Function analyzeJob: returns the parsed body, or throws the fixed
connection-failure message. -/
def analyzeJob (f : FetchOutcome) : Except String RespObj :=
  match f with
  | .networkFailure _ => .error "Failed to connect to analysis service"
  | .httpResponse status body =>
    if statusOk status then
      match body with
      | .parsed data => .ok data
      | .malformed _ => .error "Failed to connect to analysis service"
    else .error "Failed to connect to analysis service"

/-- The value sendResponse delivers: the result annotated with the job
title and company, or an error object built from the thrown message. -/
def onAnalyzeJob (f : FetchOutcome) (jobTitle jobCompany : Option String) : RespObj :=
  match analyzeJob f with
  | .ok result => { result with jobTitle := jobTitle, jobCompany := jobCompany }
  | .error msg => { error := some msg }

end LegacyBackground

/-- The job_text field of the HTTP body the background relay posts is
request.jobText, unmodified. -/
def Background.bodyJobText (requestJobText : String) : String := requestJobText

lemma infixAppendRight (x : List Char) {m y : List Char} (h : m <:+: y) :
    m <:+: x ++ y :=
  h.trans (List.suffix_append x y).isInfix

lemma prefixLabel {lab pre : List Char} (t : List Char) (h : lab <+: pre) :
    lab <:+: pre ++ t :=
  (h.trans (List.prefix_append pre t)).isInfix

/-- A string of n letters, used as a synthetic description. -/
def descChars (n : Nat) : String := ⟨List.replicate n 'a'⟩

/-- A detail-page document whose only populated element is the Indeed
description container, holding n letters. -/
def docIndeed (n : Nat) : Content.Doc :=
  { url := "https://www.indeed.com/viewjob?jk=abc123",
    hostname := "www.indeed.com",
    pathname := "/viewjob",
    query := fun sel => if sel = "#jobDescriptionText" then some (descChars n) else none }

/-- A document on an unrecognized host where no selector matches. -/
def docPlain : Content.Doc :=
  { url := "https://example.com/x", hostname := "example.com", pathname := "/x",
    query := fun _ => none }

/-- An error-shaped relay response. -/
def errRespObj : RespObj := { error := some "Server error: 500" }

/-- A fresh analyzer session. -/
def st0 : Content.AnalyzerState := { analyzedUrls := [], isAnalyzing := false }

lemma trimChars_replicate (n : Nat) :
    trimChars (List.replicate n 'a') = List.replicate n 'a' := by
  cases n with
  | zero => rfl
  | succ k =>
    have h1 : (List.replicate (k + 1) 'a').dropWhile isWS = List.replicate (k + 1) 'a' := by
      rw [List.replicate_succ]
      exact dropWhile_eq_self_of_head (by decide)
    unfold trimChars dropTrailingWS
    rw [h1, List.reverse_replicate, h1, List.reverse_replicate]

lemma jsTrim_descChars (n : Nat) : jsTrim (descChars n) = descChars n := by
  unfold jsTrim descChars
  rw [show (String.mk (List.replicate n 'a')).data = List.replicate n 'a' from rfl,
    trimChars_replicate]

lemma descChars_length (n : Nat) : (descChars n).length = n := by
  unfold descChars
  rw [String.length_mk, List.length_replicate]

lemma descChars_ne_empty {n : Nat} (h : n ≠ 0) : descChars n ≠ "" := by
  intro heq
  have hd : List.replicate n 'a' = [] := congrArg String.data heq
  exact h ((List.replicate_eq_nil_iff 'a').mp hd)

lemma getText_of_none {d : Content.Doc} {ss : List String}
    (h : ∀ s ∈ ss, d.query s = none) : Content.getText d ss = "" := by
  induction ss with
  | nil => rfl
  | cons s rest ih =>
    simp only [Content.getText]
    rw [h s (by simp)]
    exact ih (fun x hx => h x (by simp [hx]))

lemma getText_cons_some {d : Content.Doc} {s t : String} (ss : List String)
    (hq : d.query s = some t) (ht : jsTrim t ≠ "") :
    Content.getText d (s :: ss) = jsTrim t := by
  simp only [Content.getText]
  rw [hq]
  simp [ht]

lemma getDescriptionFallbackAux_cons_some {d : Content.Doc} {s t : String}
    (ss : List String) (hq : d.query s = some t) (hlen : t.length > 500) :
    Content.getDescriptionFallbackAux d (s :: ss) = jsTrim t := by
  simp only [Content.getDescriptionFallbackAux]
  rw [hq]
  simp [hlen]

lemma classSelTitle_docIndeed (n : Nat) :
    Content.classSelTitle (docIndeed n) = "" := by
  have hc : strContains (docIndeed n).hostname "indeed.com" = true := rfl
  simp only [Content.classSelTitle, hc, if_true]
  exact getText_of_none (by intro s hs; fin_cases hs <;> rfl)

lemma classSelCompany_docIndeed (n : Nat) :
    Content.classSelCompany (docIndeed n) = "" := by
  have hc : strContains (docIndeed n).hostname "indeed.com" = true := rfl
  simp only [Content.classSelCompany, hc, if_true]
  exact getText_of_none (by intro s hs; fin_cases hs <;> rfl)

lemma classSelDescription_docIndeed (n : Nat) (hn : n ≠ 0) :
    Content.classSelDescription (docIndeed n) = descChars n := by
  have hc : strContains (docIndeed n).hostname "indeed.com" = true := rfl
  have hne : jsTrim (descChars n) ≠ "" := by
    rw [jsTrim_descChars]
    exact descChars_ne_empty hn
  simp only [Content.classSelDescription, hc, if_true]
  rw [show Content.indeedDescriptionSelectors =
    "#jobDescriptionText" :: [".job-description", ".jobsearch-JobComponent-description",
      "[data-testid=\"job-description\"]"] from rfl]
  rw [getText_cons_some _ (show (docIndeed n).query "#jobDescriptionText" =
    some (descChars n) from rfl) hne, jsTrim_descChars]

lemma extractJobData_docIndeed_description (n : Nat) (hn : n ≠ 0) :
    (Content.extractJobData (docIndeed n)).description = descChars n := by
  simp only [Content.extractJobData, classSelDescription_docIndeed n hn,
    descChars_ne_empty hn, if_false, ite_false]

lemma extractJobData_docIndeed_text (n : Nat) (hn : n ≠ 0) :
    (Content.extractJobData (docIndeed n)).text =
      "JOB TITLE:  | COMPANY:  | DESCRIPTION: " ++ descChars n := by
  have hfb : Content.getText (docIndeed n) Content.fallbackTitleSelectors = "" :=
    getText_of_none (by intro s hs; fin_cases hs <;> rfl)
  simp only [Content.extractJobData, classSelTitle_docIndeed n,
    classSelCompany_docIndeed n, classSelDescription_docIndeed n hn,
    descChars_ne_empty hn, if_false, ite_false, if_true, ite_true, hfb]
  rfl

lemma extractJobData_docIndeed_text_length (n : Nat) (hn : n ≠ 0) :
    (Content.extractJobData (docIndeed n)).text.length = 39 + n := by
  rw [extractJobData_docIndeed_text n hn, String.length_append, descChars_length,
    show ("JOB TITLE:  | COMPANY:  | DESCRIPTION: " : String).length = 39 from rfl]

lemma cond_docIndeed (n : Nat) (hn : n ≠ 0) (h : 300 < 39 + n) :
    (Content.extractJobData (docIndeed n)).text ≠ "" ∧
      (Content.extractJobData (docIndeed n)).text.length > 300 := by
  have hlen := extractJobData_docIndeed_text_length n hn
  constructor
  · intro heq
    rw [heq] at hlen
    simp at hlen
    omega
  · rw [hlen]
    exact h

lemma infixLabel {lab pre : List Char} (t : List Char) (h : lab <:+: pre) :
    lab <:+: pre ++ t :=
  h.trans (List.prefix_append pre t).isInfix

lemma cardText_labels (t c l s d : String) :
    "JOB TITLE:".data <:+: (Content.cardText t c l s d).data ∧
    "DESCRIPTION:".data <:+: (Content.cardText t c l s d).data := by
  constructor
  · simp only [Content.cardText, String.data_append, List.append_assoc]
    exact prefixLabel _ (by decide)
  · simp only [Content.cardText, String.data_append, List.append_assoc]
    exact infixAppendRight _ (infixAppendRight _ (infixAppendRight _ (infixAppendRight _
      (infixAppendRight _ (infixAppendRight _ (infixAppendRight _ (infixAppendRight _
        (infixLabel _ (by decide)))))))))

lemma pageTemplate_labels (t c u d : String) :
    "JOB TITLE:".data <:+: (jsTrim (PopupUI.pageTemplate t c u d)).data ∧
    "DESCRIPTION:".data <:+: (jsTrim (PopupUI.pageTemplate t c u d)).data := by
  have hraw1 : "JOB TITLE:".data <:+: (PopupUI.pageTemplate t c u d).data := by
    simp only [PopupUI.pageTemplate, String.data_append, List.append_assoc]
    exact infixLabel _ (by decide)
  have hraw2 : "DESCRIPTION:".data <:+: (PopupUI.pageTemplate t c u d).data := by
    simp only [PopupUI.pageTemplate, String.data_append, List.append_assoc]
    exact infixAppendRight _ (infixAppendRight _ (infixAppendRight _ (infixAppendRight _
      (infixAppendRight _ (infixAppendRight _ (infixLabel _ (by decide)))))))
  exact ⟨infix_trimChars hraw1 (by decide) (by decide) (by decide),
    infix_trimChars hraw2 (by decide) (by decide) (by decide)⟩

lemma legacyText_labels (t c d : String) :
    "TITLE:".data <:+: ("TITLE: " ++ t ++ " | COMPANY: " ++ c ++ " | DESCRIPTION: " ++ d).data ∧
    "DESCRIPTION:".data <:+: ("TITLE: " ++ t ++ " | COMPANY: " ++ c ++ " | DESCRIPTION: " ++ d).data := by
  constructor
  · simp only [String.data_append, List.append_assoc]
    exact prefixLabel _ (by decide)
  · simp only [String.data_append, List.append_assoc]
    exact infixAppendRight _ (infixAppendRight _ (infixAppendRight _ (infixAppendRight _
      (infixLabel _ (by decide)))))

lemma getDescriptionFallbackAux_of_none {d : Content.Doc} {ss : List String}
    (h : ∀ s ∈ ss, d.query s = none) : Content.getDescriptionFallbackAux d ss = "" := by
  induction ss with
  | nil => rfl
  | cons s rest ih =>
    simp only [Content.getDescriptionFallbackAux]
    rw [h s (by simp)]
    exact ih (fun x hx => h x (by simp [hx]))

/-- The card of the card-extraction scenario: four newline-separated
lines and no matching structured selector. -/
def card6 : Content.Card :=
  { textContent := "Senior Engineer\nAcme Corp\n$120K/yr\nApply Now", query := fun _ => none }

/-- A URL and document matching both a detail pattern and a listing
pattern. -/
def docBoth : Content.Doc :=
  { url := "https://example.com/viewjob", hostname := "example.com",
    pathname := "/jobs-search", query := fun _ => none }

/-- A URL and document matching neither pattern family. -/
def docNeither : Content.Doc :=
  { url := "https://example.com/about", hostname := "example.com",
    pathname := "/about", query := fun _ => none }

/-- A recognized-host document with an empty selector description and a
3000-character main container. -/
def docIndeedFB : Content.Doc :=
  { url := "https://www.indeed.com/viewjob?jk=zzz", hostname := "www.indeed.com",
    pathname := "/viewjob",
    query := fun sel => if sel = "main" then some (descChars 3000) else none }

lemma docIndeedFB_description :
    (Content.extractJobData docIndeedFB).description = descChars 3000 := by
  have hc : strContains docIndeedFB.hostname "indeed.com" = true := rfl
  have hsel : Content.classSelDescription docIndeedFB = "" := by
    simp only [Content.classSelDescription, hc, if_true]
    exact getText_of_none (by intro s hs; fin_cases hs <;> rfl)
  have hfb : Content.getDescriptionFallback docIndeedFB = descChars 3000 := by
    unfold Content.getDescriptionFallback
    rw [show Content.contentSelectors = "main" :: ["[role=\"main\"]", ".content",
      ".main-content", "#main-content"] from rfl]
    rw [getDescriptionFallbackAux_cons_some _
      (show docIndeedFB.query "main" = some (descChars 3000) from rfl)
      (by rw [descChars_length]; norm_num)]
    exact jsTrim_descChars 3000
  simp only [Content.extractJobData, hsel]
  simp [hfb]

/-- A page for the injected extractor whose selector description has
exactly 199 characters and whose main container holds 2500. -/
def pageDoc199 : PopupUI.PageDoc :=
  { url := "https://www.indeed.com/viewjob?jk=abc",
    query := fun sel =>
      if sel = "#jobDescriptionText, .job-description, .jobsearch-JobComponent-description"
      then some (descChars 199)
      else if sel = "main, #main, .job-details, .jobs-details" then some (descChars 2500)
      else none,
    bodyText := "" }

/-- C1 (amended): a URL is never added after a message send that throws
or when the extracted text is insufficient, so such failures permit
retry; but whenever the send resolves — an error-shaped relay response
included — the URL is added to the analyzed set, because the add runs
unconditionally right after displayResults returns. -/
theorem C1_amended : ∀ (st : Content.AnalyzerState) (d : Content.Doc) (m : String)
    (resp : Option RespObj), st.isAnalyzing = false → d.url ∉ st.analyzedUrls →
    (d.url ∉ (Content.analyzeCurrentJob st d (.threw m)).1.analyzedUrls ∧
     ((Content.extractJobData d).text ≠ "" ∧ (Content.extractJobData d).text.length > 300 →
       d.url ∈ (Content.analyzeCurrentJob st d (.resolved resp)).1.analyzedUrls)) := by
  intro st d m resp h1 h2
  constructor
  · by_cases h3 : (Content.extractJobData d).text ≠ "" ∧
        (Content.extractJobData d).text.length > 300
    · simp [Content.analyzeCurrentJob, h1, h2, h3]
    · simp [Content.analyzeCurrentJob, h1, h2, h3]
  · intro h3
    simp [Content.analyzeCurrentJob, h1, h2, h3]

/-- C1 counterexample: an automatic analysis of a fresh URL that fails
with an error-shaped relay response renders the error indicator, yet
the URL ends up in the analyzed set, so the claimed invariant fails. -/
theorem C1_counterexample :
    (Content.analyzeCurrentJob st0 (docIndeed 301) (.resolved (some errRespObj))).2.isErrorOut = true ∧
    (docIndeed 301).url ∈ (Content.analyzeCurrentJob st0 (docIndeed 301) (.resolved (some errRespObj))).1.analyzedUrls := by
  have hc := cond_docIndeed 301 (by norm_num) (by norm_num)
  constructor
  · simp [Content.analyzeCurrentJob, st0, hc]
    decide
  · simp [Content.analyzeCurrentJob, st0, hc]

/-- Witness for the amended C1 theorem at a concrete session, document
and error-shaped response. -/
theorem C1_amended_witness :
    (docIndeed 301).url ∉ (Content.analyzeCurrentJob st0 (docIndeed 301) (.threw "network down")).1.analyzedUrls ∧
    (docIndeed 301).url ∈ (Content.analyzeCurrentJob st0 (docIndeed 301) (.resolved (some errRespObj))).1.analyzedUrls := by
  have h := C1_amended st0 (docIndeed 301) "network down" (some errRespObj) rfl (by simp [st0])
  exact ⟨h.1, h.2 (cond_docIndeed 301 (by norm_num) (by norm_num))⟩

/-- C2 (amended): only the popup sendForAnalysis path truncates the
transmitted text, to 4000 characters; the content-script automatic
path forwards the extracted text to the relay and onward to the HTTP
body unmodified, so its length is unbounded. -/
theorem C2_amended :
    (∀ t : String, (PopupUI.sendForAnalysisBody t).job_text.length ≤ 4000) ∧
    (∀ d : Content.Doc,
      Background.bodyJobText (Content.analyzeCurrentJobMsg (Content.extractJobData d)).jobText
        = (Content.extractJobData d).text) := by
  constructor
  · intro t
    show (jsSubstringTo t 4000).length ≤ 4000
    unfold jsSubstringTo
    rw [String.length_mk, List.length_take]
    exact Nat.min_le_left _ _
  · intro d
    rfl

/-- C2 counterexample: a page whose description selector yields 4001
characters makes the automatic path transmit 4040 characters, above
every observed service limit. -/
theorem C2_counterexample :
    4000 < (Background.bodyJobText
      (Content.analyzeCurrentJobMsg (Content.extractJobData (docIndeed 4001))).jobText).length := by
  show 4000 < (Content.extractJobData (docIndeed 4001)).text.length
  rw [extractJobData_docIndeed_text_length 4001 (by norm_num)]
  norm_num

/-- C3 (amended): the popup result view and the in-page badge give scam
styling on a fake prediction and otherwise threshold the legitimate
styling at confidence 0.8, as the spec says; the per-card floating
panel uses the same shape but thresholds at 0.7. -/
theorem C3_amended : ∀ (p : Option String) (c : ℚ),
    colorStyle (LegacyPopup.displayResult p c).titleColor = specStyle p c ∧
    colorStyle (Content.createResultsBadge p c).statusColor = specStyle p c ∧
    colorStyle (Content.updateFloatingAnalysis p c).statusColor = specStyle07 p c := by
  intro p c
  refine ⟨?_, ?_, ?_⟩ <;>
    simp only [LegacyPopup.displayResult, Content.createResultsBadge,
      Content.updateFloatingAnalysis, specStyle, specStyle07] <;>
    split_ifs <;> simp_all [colorStyle]

/-- C3 counterexample: at prediction real and confidence 0.75 the
floating panel styles as likely legitimate while the specified mapping
requires the caution styling. -/
theorem C3_counterexample :
    colorStyle (Content.updateFloatingAnalysis (some "real") (3 / 4)).statusColor = Styling.legit ∧
    specStyle (some "real") (3 / 4) = Styling.caution ∧ Styling.legit ≠ Styling.caution := by
  have h1 : ¬(some "real" = some "fake") := by decide
  have h2 : (3 / 4 : ℚ) > 7 / 10 := by norm_num
  have h3 : ¬((3 / 4 : ℚ) > 8 / 10) := by norm_num
  refine ⟨?_, ?_, by decide⟩
  · simp [Content.updateFloatingAnalysis, h1, h2, colorStyle]
  · simp [specStyle, h1, h3]

/-- C4 (amended): for every input, the card extractor and the injected
page extractor return a record whose text contains the literal labels
JOB TITLE: and DESCRIPTION:; the injected popup extractor of
src/popup.js always contains DESCRIPTION: but writes TITLE: instead of
JOB TITLE:. -/
theorem C4_amended :
    (∀ card : Content.Card,
      "JOB TITLE:".data <:+: (Content.extractJobDataFromCard card).text.data ∧
      "DESCRIPTION:".data <:+: (Content.extractJobDataFromCard card).text.data) ∧
    (∀ d : PopupUI.PageDoc,
      "JOB TITLE:".data <:+: (PopupUI.extractJobDataFromPage d).text.data ∧
      "DESCRIPTION:".data <:+: (PopupUI.extractJobDataFromPage d).text.data) ∧
    (∀ d : Content.Doc,
      "TITLE:".data <:+: (LegacyPopup.extractJobData d).text.data ∧
      "DESCRIPTION:".data <:+: (LegacyPopup.extractJobData d).text.data) := by
  refine ⟨fun card => ?_, fun d => ?_, fun d => ?_⟩
  · simp only [Content.extractJobDataFromCard]
    exact cardText_labels _ _ _ _ _
  · simp only [PopupUI.extractJobDataFromPage]
    exact pageTemplate_labels _ _ _ _
  · simp only [LegacyPopup.extractJobData]
    exact legacyText_labels _ _ _

/-- C4 counterexample: on a document where no selector matches, the
popup-injected extractor record does not contain the label
JOB TITLE:. -/
theorem C4_counterexample :
    ¬ ("JOB TITLE:".data <:+: (LegacyPopup.extractJobData docPlain).text.data) := by decide

/-- C5 (amended): the injected page extractor falls back to the main
container or body whenever the selector description is shorter than
200 characters (199 triggers it) and truncates the container text to
2000 characters; the content-script page extractor keeps any non-empty
selector description, however short, and its fallback is untruncated. -/
theorem C5_amended :
    (∀ d : PopupUI.PageDoc, (PopupUI.pageSelDescription d).length < 200 →
      (PopupUI.extractJobDataFromPage d).description
          = jsSubstringTo (PopupUI.pageMainText d) 2000 ∧
      (PopupUI.extractJobDataFromPage d).description.length ≤ 2000) ∧
    (∀ d : Content.Doc, Content.classSelDescription d ≠ "" →
      (Content.extractJobData d).description = Content.classSelDescription d) := by
  constructor
  · intro d h
    have hcond : PopupUI.pageSelDescription d = "" ∨
        (PopupUI.pageSelDescription d).length < 200 := Or.inr h
    constructor
    · simp only [PopupUI.extractJobDataFromPage]
      rw [if_pos hcond]
    · simp only [PopupUI.extractJobDataFromPage]
      rw [if_pos hcond]
      unfold jsSubstringTo
      rw [String.length_mk, List.length_take]
      exact Nat.min_le_left _ _
  · intro d h
    simp only [Content.extractJobData]
    rw [if_neg h]

/-- C5 counterexample: the content-script page extractor keeps a
199-character selector description instead of falling back to any
content container, and when its fallback does fire it returns the full
3000-character container text, above the claimed 2000 to 2500 bound. -/
theorem C5_counterexample :
    (Content.extractJobData (docIndeed 199)).description = descChars 199 ∧
    Content.getDescriptionFallback (docIndeed 199) = "" ∧ descChars 199 ≠ "" ∧
    2500 < (Content.extractJobData docIndeedFB).description.length := by
  refine ⟨extractJobData_docIndeed_description 199 (by norm_num), ?_, ?_, ?_⟩
  · unfold Content.getDescriptionFallback
    exact getDescriptionFallbackAux_of_none (by intro s hs; fin_cases hs <;> rfl)
  · exact descChars_ne_empty (by norm_num)
  · rw [docIndeedFB_description, descChars_length]
    norm_num

/-- Witness for the amended C5 theorem: a 199-character selector
description makes the injected extractor take the truncated main
container, and a non-empty selector description is kept verbatim by
the content-script extractor. -/
theorem C5_amended_witness :
    (PopupUI.pageSelDescription pageDoc199).length < 200 ∧
    (PopupUI.extractJobDataFromPage pageDoc199).description
        = jsSubstringTo (PopupUI.pageMainText pageDoc199) 2000 ∧
    (PopupUI.extractJobDataFromPage pageDoc199).description.length ≤ 2000 ∧
    (Content.extractJobData (docIndeed 199)).description
        = Content.classSelDescription (docIndeed 199) := by
  have hsel0 : PopupUI.pageSelDescription pageDoc199 = jsTrim (descChars 199) := rfl
  have h199 : (PopupUI.pageSelDescription pageDoc199).length < 200 := by
    rw [hsel0, jsTrim_descChars, descChars_length]
    norm_num
  have h := C5_amended.1 pageDoc199 h199
  have h2 := C5_amended.2 (docIndeed 199) (by
    rw [classSelDescription_docIndeed 199 (by norm_num)]
    exact descChars_ne_empty (by norm_num))
  exact ⟨h199, h.1, h.2, h2⟩

/-- C6: on the card whose text is the four lines Senior Engineer, Acme
Corp, dollar 120K per year, Apply Now, with no structured selector
matching, the card extractor heuristics yield exactly the claimed
title, company and salary. -/
theorem C6_card_scenario :
    (Content.extractJobDataFromCard card6).title = "Senior Engineer" ∧
    (Content.extractJobDataFromCard card6).company = "Acme Corp" ∧
    (Content.extractJobDataFromCard card6).salary = "$120K/yr" := by decide

/-- C7: manual free-text analysis trims the input and rejects anything
under 50 characters with an inline message before any network call,
while 50 characters or more always reach the relay. -/
theorem C7_manual_validation : ∀ v : String,
    ((jsTrim v).length < 50 →
      PopupUI.analyzeTextInput v =
        .rejected "❌ Please enter at least 50 characters of job description." ∧
      (PopupUI.analyzeTextInput v).relayInvoked = false) ∧
    (50 ≤ (jsTrim v).length →
      PopupUI.analyzeTextInput v = .invoked (PopupUI.sendForAnalysisBody (jsTrim v)) ∧
      (PopupUI.analyzeTextInput v).relayInvoked = true) := by
  intro v
  constructor
  · intro h
    simp [PopupUI.analyzeTextInput, h, PopupUI.ManualOutcome.relayInvoked]
  · intro h
    have h2 : ¬(jsTrim v).length < 50 := by omega
    simp [PopupUI.analyzeTextInput, h2, PopupUI.ManualOutcome.relayInvoked]

/-- Witness for C7 at a 49-character and a 50-character input. -/
theorem C7_witness :
    PopupUI.analyzeTextInput (descChars 49) =
      .rejected "❌ Please enter at least 50 characters of job description." ∧
    (PopupUI.analyzeTextInput (descChars 50)).relayInvoked = true := by
  refine ⟨((C7_manual_validation (descChars 49)).1 ?_).1,
    ((C7_manual_validation (descChars 50)).2 ?_).2⟩
  · rw [jsTrim_descChars, descChars_length]
    norm_num
  · rw [jsTrim_descChars, descChars_length]

/-- C8: both background relays deliver an object whose error field
holds a message string on every failure mode — network failure,
non-success status, malformed JSON — and never a raw exception. -/
theorem C8_relay_normalizes : ∀ (f : FetchOutcome) (t c : Option String),
    isFailure f = true →
    (∃ m, (Background.onAnalyzeJob f).error = some m) ∧
    (∃ m, (LegacyBackground.onAnalyzeJob f t c).error = some m) := by
  intro f t c h
  cases f with
  | networkFailure msg =>
    exact ⟨⟨msg, rfl⟩, ⟨"Failed to connect to analysis service", rfl⟩⟩
  | httpResponse status body =>
    by_cases hs : statusOk status
    · cases body with
      | parsed r =>
        simp [isFailure, hs] at h
      | malformed m =>
        refine ⟨⟨m, ?_⟩, ⟨"Failed to connect to analysis service", ?_⟩⟩
        · simp [Background.onAnalyzeJob, hs, Background.errResp]
        · simp [LegacyBackground.onAnalyzeJob, LegacyBackground.analyzeJob, hs]
    · refine ⟨⟨"Server error: " ++ toString status, ?_⟩,
        ⟨"Failed to connect to analysis service", ?_⟩⟩
      · cases body <;> simp [Background.onAnalyzeJob, hs, Background.errResp]
      · cases body <;> simp [LegacyBackground.onAnalyzeJob, LegacyBackground.analyzeJob, hs]

/-- Witness for C8 at a concrete malformed-body failure. -/
theorem C8_witness :
    isFailure (.httpResponse 500 (.malformed "unexpected token")) = true ∧
    (∃ m, (Background.onAnalyzeJob (.httpResponse 500 (.malformed "unexpected token"))).error = some m) ∧
    (∃ m, (LegacyBackground.onAnalyzeJob (.httpResponse 500 (.malformed "unexpected token")) none none).error = some m) := by
  have h := C8_relay_normalizes (.httpResponse 500 (.malformed "unexpected token")) none none (by decide)
  exact ⟨by decide, h.1, h.2⟩

/-- C9: the page classifier tests the detail conditions before the
listing conditions, so a document satisfying both classifies as the
detail page type, and one satisfying neither as unknown. -/
theorem C9_detail_priority : ∀ d : Content.Doc,
    (Content.detailCond d = true → Content.listingCond d = true →
      Content.getPageType d = "job-detail") ∧
    (Content.detailCond d = false → Content.listingCond d = false →
      Content.getPageType d = "unknown") := by
  intro d
  constructor
  · intro h1 _
    simp [Content.getPageType, h1]
  · intro h1 h2
    simp [Content.getPageType, h1, h2]

/-- Witness for C9 at a document matching both pattern families and one
matching neither. -/
theorem C9_witness :
    Content.detailCond docBoth = true ∧ Content.listingCond docBoth = true ∧
    Content.getPageType docBoth = "job-detail" ∧
    Content.getPageType docNeither = "unknown" :=
  ⟨by decide, by decide,
    (C9_detail_priority docBoth).1 (by decide) (by decide),
    (C9_detail_priority docNeither).2 (by decide) (by decide)⟩

/-- C10: any run of the automatic analysis starting with the in-flight
flag clear ends with it clear again, on every path: success,
error-shaped response, thrown send, insufficient text, and the early
dedup return alike. -/
theorem C10_in_flight_reset : ∀ (st : Content.AnalyzerState) (d : Content.Doc)
    (send : Content.SendResult), st.isAnalyzing = false →
    (Content.analyzeCurrentJob st d send).1.isAnalyzing = false := by
  intro st d send h
  by_cases h2 : d.url ∈ st.analyzedUrls
  · simp [Content.analyzeCurrentJob, h, h2]
  · by_cases h3 : (Content.extractJobData d).text ≠ "" ∧
        (Content.extractJobData d).text.length > 300
    · cases send <;> simp [Content.analyzeCurrentJob, h, h2, h3]
    · simp [Content.analyzeCurrentJob, h, h2, h3]

/-- Witness for C10 at a concrete thrown send. -/
theorem C10_witness :
    (Content.analyzeCurrentJob st0 (docIndeed 301) (.threw "network down")).1.isAnalyzing = false :=
  C10_in_flight_reset st0 (docIndeed 301) (.threw "network down") rfl
